import Mathlib

/-!
Shallow embedding of the navigation/state engine of `gil`, a terminal
browser for git history (src/terminal.rs, src/git.rs, src/main.rs).

External collaborators are injected values, exactly as the spec scopes them:
* the History Provider (git2 `Revwalk` + `next_commit`) is a list of
  `Except String CommitInfo` results: an `Except.ok` element is a fetched
  record, an `Except.error` element is a per-record failure, and running out
  of list elements is provider exhaustion (`Ok(None)` in the source);
* the Content Renderer (`git.rs::show`, which shells out to `git show` and
  `delta`) is a function argument `render : Nat → String → Text`, and its own
  internals are modelled in `gitShow` with its external interactions
  (the repository's working directory, process spawn, process output, ANSI
  parse) injected — the `repo.workdir().unwrap()` panic on a bare repository
  is the `none` result;
* tui-derived quantities (wrapped line counts, pane heights, the terminal
  height) are plain `Nat` parameters.

Machine integers: `usize` and `u16` are embedded as `Nat` with explicit
saturation bounds where the source uses saturating arithmetic.
Rust panics on out-of-bounds indexing (`commit_infos[i]`,
`get_delta(i).unwrap()`); those indexings are embedded with `List.getD …
default`, and every theorem below only exercises them in bounds.
-/

namespace Gil

/-- `usize::MAX` (`2 ^ 64 − 1`) on the 64-bit targets the source builds
for. -/
def USIZE_MAX : Nat := 18446744073709551615

/-- `u16::MAX` (`2 ^ 16 − 1`). -/
def U16_MAX : Nat := 65535

/-- Rust `usize::saturating_add_signed` (the deltas the source feeds it are
`i16` widened to `isize`): clamps `n + d` into `[0, usize::MAX]`. -/
def satAddSigned (n : Nat) (d : Int) : Nat := min (((n : Int) + d).toNat) USIZE_MAX

/-- Rust `u16::saturating_add_signed`: clamps `n + d` into `[0, u16::MAX]`. -/
def u16SatAddSigned (n : Nat) (d : Int) : Nat := min (((n : Int) + d).toNat) U16_MAX

/-- tui `Text`: a list of (already styled) lines.  Only the line structure is
relevant to the engine: `Text::height()` is the number of lines. -/
structure Text where
  lines : List String
  deriving DecidableEq, Repr, Inhabited

/-- `Text::raw` / `String::into::<Text>()`: splits on newlines. -/
def Text.raw (s : String) : Text := ⟨s.splitOn "\n"⟩

/-- `Text::height()`. -/
def Text.height (t : Text) : Nat := t.lines.length

/-- tui `ListState`: the engine only reads and writes its `selected` index
(the widget-internal window offset is presentation state of the tui crate). -/
structure ListState where
  selected : Option Nat
  deriving DecidableEq, Repr, Inhabited

/-- `ListState::default()`. -/
def ListState.default : ListState := ⟨none⟩

/-- `ListState::select_first()`. -/
def ListState.selectFirst (_ : ListState) : ListState := ⟨some 0⟩

/-- `git2::Delta` status tags (only `Deleted`, `Renamed`, `Copied` are
inspected by the source; the rest are collapsed into representatives). -/
inductive DeltaStatus
  | Added
  | Deleted
  | Modified
  | Renamed
  | Copied
  | Other
  deriving DecidableEq, Repr, Inhabited

/-- One file change of a record: `git2::DiffDelta`.  `new_file_path` is
`delta.new_file().path()`, `old_file_path` is `delta.old_file().path()`. -/
structure FileDelta where
  status : DeltaStatus
  new_file_path : Option String
  old_file_path : Option String
  deriving DecidableEq, Repr, Inhabited

/-- `git.rs::CommitInfo`.  `commit_id` embeds the opaque `Oid`; `patch` is
the delta list of the `Diff`; `stats` are the preformatted stat lines;
`num_files` is `stats.files_changed()` (kept as its own field, as in the
source, independent of `patch.length`). -/
structure CommitInfo where
  commit_id : Nat
  author_name : String
  author_email : String
  time : String
  summary : String
  message : String
  patch : List FileDelta
  stats : List String
  num_files : Nat
  deriving DecidableEq, Repr, Inhabited

/-- `BranchType` of git2 (local vs. remote). -/
inductive BranchKind
  | Local
  | Remote
  deriving DecidableEq, Repr

/-- `git.rs::Decorations`, with the hash maps embedded as association
lists. -/
structure Decorations where
  branches : List (Nat × List (String × BranchKind))
  tags : List (Nat × List String)
  deriving DecidableEq, Repr, Inhabited

/-- `terminal.rs::FileView`. -/
structure FileView where
  contents : Text
  scroll : Nat
  deriving DecidableEq, Repr, Inhabited

/-- `terminal.rs::CommitView`. -/
structure CommitView where
  index : Nat
  message_scroll : Nat
  files_state : ListState
  file_view : Option FileView
  deriving DecidableEq, Repr, Inhabited

/-- `terminal.rs::LogMode`. -/
inductive LogMode
  | Short
  | Medium
  | Long
  deriving DecidableEq, Repr, Inhabited

/-- `terminal.rs::AppRenderState`. -/
structure AppRenderState where
  commit_infos : List CommitInfo
  decorations : Decorations
  log_mode : LogMode
  log_state : ListState
  commit_view : Option CommitView
  popup : Option Text
  deriving DecidableEq, Repr, Inhabited

/-- Result of one `handle_input` call: `Ok(true)` (keep running),
`Ok(false)` (quit), or the `x` branch which `exec`s `git log` and never
returns to the loop. -/
inductive HandleResult
  | cont
  | quit
  | execGit
  deriving DecidableEq, Repr

/-- The key events the source distinguishes (`crossterm::KeyCode`). -/
inductive KeyCode
  | char (c : Char)
  | down
  | up
  | pageDown
  | pageUp
  | home
  | enter
  | esc
  | other
  deriving DecidableEq, Repr

/-- `terminal.rs::scroll` (lines 331–344): move a `ListState` by a signed
amount; unselected cursors snap to index 0; bounded cursors clamp to
`[0, mx]`, unbounded ones only saturate at 0. -/
def scroll (list_state : ListState) (amount : Int) (mx : Option Nat) : ListState × Nat :=
  let index := match list_state.selected with
    | none => 0
    | some index =>
      let new_index := satAddSigned index amount
      match mx with
      | none => max new_index 0
      | some m => min (max new_index 0) m
  (⟨some index⟩, index)

/-- `terminal.rs::scroll_file` (lines 345–350): scroll the file-content pane,
clamped to `[0, contents.height() − term_height / 3]` (u16 arithmetic,
saturating). -/
def scroll_file (show_file_option : Option FileView) (height : Nat) (amount : Int) :
    Option FileView :=
  match show_file_option with
  | none => none
  | some show_file =>
    let mx := min show_file.contents.height U16_MAX - height / 3
    some { show_file with scroll := min (max (u16SatAddSigned show_file.scroll amount) 0) mx }

/-- `terminal.rs::CommitView::show_file` (lines 151–165): drop the previous
`FileView` and, unless the delta is a deletion or has no new-file path,
invoke the Content Renderer for the newly selected file. -/
def CommitView.show_file (render : Nat → String → Text) (cv : CommitView)
    (commit_infos : List CommitInfo) (index : Nat) : CommitView :=
  let cv := { cv with file_view := none }
  let commit := commit_infos.getD cv.index default
  let delta := commit.patch.getD index default
  if delta.status ≠ DeltaStatus.Deleted then
    match delta.new_file_path with
    | some path =>
      { cv with file_view := some { contents := render commit.commit_id path, scroll := 0 } }
    | none => cv
  else cv

/-- `terminal.rs::App::show_commit_file` (lines 145–148).  The source
unwraps `commit_view`; it is always `Some` at the call sites, and the
`none` branch here is never exercised by the theorems. -/
def show_commit_file (render : Nat → String → Text) (s : AppRenderState) (index : Nat) :
    AppRenderState :=
  match s.commit_view with
  | some cv => { s with commit_view := some (cv.show_file render s.commit_infos index) }
  | none => s

/-- `terminal.rs::App::show_commit` (lines 129–143): open the detail view on
record `index`; if the record has any file change, select and eagerly show
the first file. -/
def show_commit (render : Nat → String → Text) (s : AppRenderState) (index : Nat) :
    AppRenderState :=
  let cv : CommitView :=
    { index := index, message_scroll := 0, files_state := ListState.default, file_view := none }
  let s := { s with commit_view := some cv }
  let commit := s.commit_infos.getD index default
  if 0 < commit.patch.length then
    let s := { s with commit_view := some { cv with files_state := cv.files_state.selectFirst } }
    show_commit_file render s 0
  else s

/-- `terminal.rs::make_log_help_text`. -/
def make_log_help_text : Text :=
  ⟨["h           this help",
    "q  esc      close window",
    "",
    "1           short log",
    "2           regular log",
    "3           log with stat",
    "",
    "j  ↓        next commit",
    "k  ↑        previous commit",
    "d  pgdown   down half a window",
    "u  pgup     up half a window",
    "g  home     first commit",
    "",
    "enter       show commit",
    "x           exec git log"]⟩

/-- `terminal.rs::make_commit_help_text`. -/
def make_commit_help_text : Text :=
  ⟨["h           this help",
    "q  esc      close window",
    "",
    "n           next file",
    "p           previous file",
    "",
    "j           down one line",
    "k           up one line",
    "d  pgdown   down half a window",
    "u  pgup     up half a window",
    "",
    "↓           scroll commit message down",
    "↑           scroll commit message up"]⟩

/-- `terminal.rs::handle_input` (lines 183–329).  `height` is
`term_size.height`; a popup swallows the key; otherwise the key is routed to
the detail view when one is open, else to the log view. -/
def handle_input (render : Nat → String → Text) (key : KeyCode) (show_only : Bool)
    (s : AppRenderState) (height : Nat) : AppRenderState × HandleResult :=
  if s.popup.isSome then
    ({ s with popup := none }, .cont)
  else
    match s.commit_view with
    | some cv =>
      match key with
      | .char 'n' =>
        let m := (s.commit_infos.getD cv.index default).num_files - 1
        let p := scroll cv.files_state 1 (some m)
        let s := { s with commit_view := some { cv with files_state := p.1 } }
        (show_commit_file render s p.2, .cont)
      | .char 'p' =>
        let m := (s.commit_infos.getD cv.index default).num_files - 1
        let p := scroll cv.files_state (-1) (some m)
        let s := { s with commit_view := some { cv with files_state := p.1 } }
        (show_commit_file render s p.2, .cont)
      | .down =>
        ({ s with commit_view := some { cv with message_scroll := min (cv.message_scroll + 1) U16_MAX } }, .cont)
      | .up =>
        ({ s with commit_view := some { cv with message_scroll := cv.message_scroll - 1 } }, .cont)
      | .char 'j' =>
        ({ s with commit_view := some { cv with file_view := scroll_file cv.file_view height 1 } }, .cont)
      | .char 'k' =>
        ({ s with commit_view := some { cv with file_view := scroll_file cv.file_view height (-1) } }, .cont)
      | .char 'd' =>
        ({ s with commit_view := some { cv with file_view := scroll_file cv.file_view height (height / 2 : Nat) } }, .cont)
      | .pageDown =>
        ({ s with commit_view := some { cv with file_view := scroll_file cv.file_view height (height / 2 : Nat) } }, .cont)
      | .char 'u' =>
        ({ s with commit_view := some { cv with file_view := scroll_file cv.file_view height (-(height / 2 : Nat)) } }, .cont)
      | .pageUp =>
        ({ s with commit_view := some { cv with file_view := scroll_file cv.file_view height (-(height / 2 : Nat)) } }, .cont)
      | .char 'h' => ({ s with popup := some make_commit_help_text }, .cont)
      | .char 'q' =>
        if show_only then (s, .quit) else ({ s with commit_view := none }, .cont)
      | .esc =>
        if show_only then (s, .quit) else ({ s with commit_view := none }, .cont)
      | _ => (s, .cont)
    | none =>
      match key with
      | .char 'j' => ({ s with log_state := (scroll s.log_state 1 none).1 }, .cont)
      | .down => ({ s with log_state := (scroll s.log_state 1 none).1 }, .cont)
      | .char 'k' => ({ s with log_state := (scroll s.log_state (-1) none).1 }, .cont)
      | .up => ({ s with log_state := (scroll s.log_state (-1) none).1 }, .cont)
      | .char 'd' =>
        ({ s with log_state := (scroll s.log_state (height / 4 : Nat) none).1 }, .cont)
      | .pageDown =>
        ({ s with log_state := (scroll s.log_state (height / 4 : Nat) none).1 }, .cont)
      | .char 'u' =>
        ({ s with log_state := (scroll s.log_state (-(height / 4 : Nat)) none).1 }, .cont)
      | .pageUp =>
        ({ s with log_state := (scroll s.log_state (-(height / 4 : Nat)) none).1 }, .cont)
      | .char 'g' => ({ s with log_state := s.log_state.selectFirst }, .cont)
      | .home => ({ s with log_state := s.log_state.selectFirst }, .cont)
      | .char '1' => ({ s with log_mode := .Short }, .cont)
      | .char '2' => ({ s with log_mode := .Medium }, .cont)
      | .char '3' => ({ s with log_mode := .Long }, .cont)
      | .enter =>
        match s.log_state.selected with
        | some i => (show_commit render s i, .cont)
        | none => (s, .cont)
      | .char 'h' => ({ s with popup := some make_log_help_text }, .cont)
      | .char 'x' => (s, .execGit)
      | .char 'q' => (s, .quit)
      | .esc => (s, .quit)
      | _ => (s, .cont)

/-- The `while self.state.commit_infos.len() < needed` loop at the top of
`terminal.rs::App::run_app` (lines 94–104).  The provider stream stands for
the `Revwalk` position: an empty stream is exhaustion (`Ok(None)` → `break`),
an `Except.error` element is a per-record failure (popup set, `break`), an
`Except.ok` element is appended.  Returns the grown buffer, the remaining
stream and the popup. -/
def fillLoop (stream : List (Except String CommitInfo)) (buf : List CommitInfo)
    (needed : Nat) (popup : Option Text) :
    List CommitInfo × List (Except String CommitInfo) × Option Text :=
  if buf.length < needed then
    match stream with
    | [] => (buf, [], popup)
    | .error e :: rest => (buf, rest, some (Text.raw e))
    | .ok ci :: rest => fillLoop rest (buf ++ [ci]) needed popup
  else (buf, stream, popup)
  termination_by stream.length

deriving instance DecidableEq for Except

/-- The whole mutable session of `App`: render state plus the provider
stream (the `Revwalk`) and the `show_only` flag. -/
structure AppState where
  show_only : Bool
  state : AppRenderState
  stream : List (Except String CommitInfo)
  deriving DecidableEq, Repr, Inhabited

/-- The per-frame buffer fill of `run_app` (lines 86–104): `needed` is `1`
in single-record mode, else `height / 2 + log_state.selected.unwrap_or(0)`. -/
def fill_step (height : Nat) (app : AppState) : AppState :=
  let needed := if app.show_only then 1 else height / 2 + app.state.log_state.selected.getD 0
  let r := fillLoop app.stream app.state.commit_infos needed app.state.popup
  { app with
    state := { app.state with commit_infos := r.1, popup := r.2.2 },
    stream := r.2.1 }

/-- One iteration of the `run_app` loop (lines 86–121) given the key event
the blocking read returns: fill the buffer, open the single record in
`--show` mode, then route the key.  The tui draw itself is presentation and
mutates no engine state in the log view. -/
def run_frame (render : Nat → String → Text) (height : Nat) (key : KeyCode)
    (app : AppState) : AppState × HandleResult :=
  let app1 := fill_step height app
  let app2 :=
    if app1.show_only && app1.state.commit_view.isNone then
      { app1 with state := show_commit render app1.state 0 }
    else app1
  let hr := handle_input render key app2.show_only app2.state height
  ({ app2 with state := hr.1 }, hr.2)

/-- Iterated `run_frame` over a list of key events. -/
def run_frames (render : Nat → String → Text) (height : Nat) (ks : List KeyCode)
    (app : AppState) : AppState :=
  ks.foldl (fun a k => (run_frame render height k a).1) app

/-- Session start (`App::new` + `main`): empty buffer, fresh revwalk over
the whole backing history, log view, no popup. -/
def init_app (deco : Decorations) (history : List CommitInfo) : AppState :=
  { show_only := false,
    state :=
      { commit_infos := [],
        decorations := deco,
        log_mode := .Short,
        log_state := ListState.default,
        commit_view := none,
        popup := none },
    stream := history.map Except.ok }

/-- One press of the next-file key in the detail view. -/
def press_next_file (render : Nat → String → Text) (show_only : Bool) (height : Nat)
    (s : AppRenderState) : AppRenderState :=
  (handle_input render (KeyCode.char 'n') show_only s height).1

/-- The message-scroll clamp the renderer applies each frame
(`terminal.rs::ui`, lines 449–451): `line_count` is the wrapped line count
of the commit message (computed by the tui `Paragraph`, capped at
`u16::MAX` by `try_into().unwrap_or(u16::MAX)`), `pane_height` the height of
the message pane. -/
def ui_clamp_message_scroll (message_scroll line_count pane_height : Nat) : Nat :=
  min message_scroll (min line_count U16_MAX - pane_height)

/-- Output of one external process (`std::process::Output`): exit status
plus captured stdout/stderr byte buffers. -/
structure ProcOutput where
  success : Bool
  stdout : List Nat
  stderr : List Nat
  deriving DecidableEq, Repr

/-- `git.rs::show` (lines 126–164), with its external interactions
injected: `workdir` is `repo.workdir()` (`None` on a bare repository),
`spawn_git` the result of spawning `git show`, `delta_output` the result of
piping through `delta`, `into_text` the `ansi_to_tui` parse.  The first
line of the source, `repo.workdir().unwrap()` (git.rs:127), panics when
`workdir` is `None`; that panic is the `none` result — on it the process
aborts and no text is ever produced.  Every failure past that line is
turned into plain error text.  (`show` is a Lean keyword, hence the name
`gitShow`.) -/
def gitShow (workdir : Option String) (spawn_git : Except String Unit)
    (delta_output : Except String ProcOutput)
    (into_text : List Nat → Except String Text) : Option Text :=
  match workdir with
  | none => none
  | some _ =>
    some (match spawn_git with
      | .error e => Text.raw ("git show: " ++ e)
      | .ok _ =>
        match delta_output with
        | .error e => Text.raw e
        | .ok o =>
          let buf := if o.success then o.stdout else o.stderr
          match into_text buf with
          | .ok t => t
          | .error e => Text.raw ("ansi_to_tui:\n" ++ e))

/-- Proof-internal invariant of the log-view scroll session: the buffer is a
prefix of the backing history, the remaining stream is the matching suffix,
no overlay is up, and the buffer has not grown past what the current cursor
demands. -/
def LogInv (history : List CommitInfo) (height : Nat) (app : AppState) : Prop :=
  ∃ m,
    app.show_only = false ∧
    app.state.commit_view = none ∧
    app.state.popup = none ∧
    app.state.commit_infos = history.take m ∧
    app.stream = (history.map Except.ok).drop m ∧
    m ≤ min (height / 2 + app.state.log_state.selected.getD 0) history.length ∧
    app.state.log_state.selected.getD 0 ≤ USIZE_MAX

/-- The four keys that scroll the log view downward. -/
def scrollDownKeys : List KeyCode := [.char 'j', .down, .char 'd', .pageDown]

/-- Sample record builder for concrete witnesses. -/
def mkCommit (id : Nat) (message : String) (patch : List FileDelta) (nf : Nat) : CommitInfo :=
  { commit_id := id, author_name := "ada", author_email := "ada@x", time := "now",
    summary := "sum", message := message, patch := patch, stats := [], num_files := nf }

/-- Sample Content Renderer used in witnesses. -/
def sampleRender : Nat → String → Text := fun _ path => Text.raw path

/-- A second, observably different sample renderer. -/
def sampleRenderAlt : Nat → String → Text := fun _ _ => Text.raw "alt"

/-- Empty decoration snapshot. -/
def noDeco : Decorations := ⟨[], []⟩

/-- A record with no file changes. -/
def commitPlain : CommitInfo := mkCommit 1 "m1" [] 0

/-- A record with two file changes. -/
def commitTwoFiles : CommitInfo :=
  mkCommit 2 "m2" [⟨.Modified, some "a.txt", none⟩, ⟨.Added, some "b.txt", none⟩] 2

/-- A record whose only file change is a deletion. -/
def commitDeleted : CommitInfo := mkCommit 3 "bye" [⟨.Deleted, some "gone.txt", none⟩] 1

/-- A log-view state with a selected cursor. -/
def appLog : AppRenderState :=
  { commit_infos := [commitPlain, commitTwoFiles], decorations := noDeco, log_mode := .Medium,
    log_state := ⟨some 7⟩, commit_view := none, popup := none }

/-- The same state with an overlay up. -/
def appPopup : AppRenderState := { appLog with popup := some (Text.raw "boom") }

/-- An open detail view on the two-file record. -/
def cvOpen : CommitView :=
  { index := 1, message_scroll := 0, files_state := ⟨some 0⟩, file_view := none }

/-- A detail-view state. -/
def appDetail : AppRenderState :=
  { appLog with log_state := ⟨some 1⟩, commit_view := some cvOpen }

/-- A log state whose only record is the deleted-file record. -/
def appDel : AppRenderState :=
  { commit_infos := [commitDeleted], decorations := noDeco, log_mode := .Short,
    log_state := ⟨some 0⟩, commit_view := none, popup := none }

/-- A log state whose only record has no file changes. -/
def appEmpty : AppRenderState :=
  { commit_infos := [commitPlain], decorations := noDeco, log_mode := .Short,
    log_state := ⟨some 0⟩, commit_view := none, popup := none }

/-- A detail view on a one-line message, message scroll at 0. -/
def appMsg : AppRenderState :=
  { commit_infos := [mkCommit 5 "hi" [] 0], decorations := noDeco, log_mode := .Short,
    log_state := ⟨some 0⟩, commit_view := some ⟨0, 0, ⟨none⟩, none⟩, popup := none }

/-- A log state over the two-file record only. -/
def appTwo : AppRenderState :=
  { commit_infos := [commitTwoFiles], decorations := noDeco, log_mode := .Short,
    log_state := ⟨some 0⟩, commit_view := none, popup := none }

/-! ## Theorems -/

/-- C3: `scroll` (terminal.rs:331–344) keeps every bounded cursor inside
`[0, u]` and every unbounded cursor non-negative, for arbitrary signed
deltas, and an unselected cursor snaps to the lower bound 0 on any move
(in particular on any nonzero delta). -/
theorem c3 (ls : ListState) (d : Int) (u : Nat) :
    (scroll ls d (some u)).2 ≤ u ∧
    0 ≤ (scroll ls d none).2 ∧
    (scroll ls d (some u)).1.selected = some (scroll ls d (some u)).2 ∧
    (ls.selected = none → d ≠ 0 →
      (scroll ls d (some u)).2 = 0 ∧ (scroll ls d none).2 = 0 ∧
      (scroll ls d (some u)).1.selected = some 0) := by
  rcases hsel : ls.selected with _ | i <;>
    simp [scroll, hsel, min_le_right]

/-- Witness for C3 at a delta far larger than any list: an unselected
cursor moved by 1000000 lands on 0. -/
theorem c3_witness :
    (scroll ⟨none⟩ 1000000 (some 3)).2 = 0 ∧ (scroll ⟨none⟩ 1000000 none).2 = 0 ∧
    (scroll ⟨none⟩ 1000000 (some 3)).1.selected = some 0 :=
  (c3 ⟨none⟩ 1000000 3).2.2.2 rfl (by decide)

/-- C6: while an overlay is up, `handle_input` (terminal.rs:183–188) clears
it on any key, changes nothing else, and keeps the session running. -/
theorem c6 (render : Nat → String → Text) (key : KeyCode) (show_only : Bool)
    (s : AppRenderState) (height : Nat) (t : Text) (hp : s.popup = some t) :
    handle_input render key show_only s height = ({ s with popup := none }, .cont) := by
  obtain ⟨infos, deco, lm, lst, cv, pop⟩ := s
  simp only [AppRenderState.popup] at hp
  subst hp
  rfl

/-- Witness for C6: even the quit key and the exec key only clear the
overlay. -/
theorem c6_witness :
    handle_input sampleRender (KeyCode.char 'x') false appPopup 30
      = ({ appPopup with popup := none }, .cont) :=
  c6 sampleRender (KeyCode.char 'x') false appPopup 30 (Text.raw "boom") rfl

/-- C7: the density keys 1/2/3 (terminal.rs:288–296) switch the log mode
and leave the numeric list-cursor index exactly as it was, for every cursor
value including none. -/
theorem c7 (render : Nat → String → Text) (show_only : Bool) (s : AppRenderState)
    (height : Nat) (hp : s.popup = none) (hcv : s.commit_view = none) :
    ((handle_input render (.char '1') show_only s height).1.log_state = s.log_state ∧
      (handle_input render (.char '1') show_only s height).1.log_mode = .Short) ∧
    ((handle_input render (.char '2') show_only s height).1.log_state = s.log_state ∧
      (handle_input render (.char '2') show_only s height).1.log_mode = .Medium) ∧
    ((handle_input render (.char '3') show_only s height).1.log_state = s.log_state ∧
      (handle_input render (.char '3') show_only s height).1.log_mode = .Long) := by
  obtain ⟨infos, deco, lm, lst, cv, pop⟩ := s
  simp only [AppRenderState.popup] at hp
  simp only [AppRenderState.commit_view] at hcv
  subst hp; subst hcv
  exact ⟨⟨rfl, rfl⟩, ⟨rfl, rfl⟩, ⟨rfl, rfl⟩⟩

/-- Witness for C7 at a concrete selected cursor. -/
theorem c7_witness :
    (handle_input sampleRender (.char '2') false appLog 30).1.log_state = appLog.log_state ∧
    (handle_input sampleRender (.char '2') false appLog 30).1.log_mode = .Medium :=
  (c7 sampleRender false appLog 30 rfl rfl).2.1

/-- C10: moving the file cursor onto a deleted file change, or one without a
new-file path, discards the previous `FileView`, creates none, and never
consults the Content Renderer (`CommitView::show_file`, terminal.rs:151–165:
the result is the same for every renderer). -/
theorem c10 (r₁ r₂ : Nat → String → Text) (cv : CommitView)
    (infos : List CommitInfo) (idx : Nat)
    (hdel : ((infos.getD cv.index default).patch.getD idx default).status = DeltaStatus.Deleted ∨
      ((infos.getD cv.index default).patch.getD idx default).new_file_path = none) :
    (cv.show_file r₁ infos idx).file_view = none ∧
    cv.show_file r₁ infos idx = cv.show_file r₂ infos idx ∧
    (cv.show_file r₁ infos idx).index = cv.index ∧
    (cv.show_file r₁ infos idx).message_scroll = cv.message_scroll ∧
    (cv.show_file r₁ infos idx).files_state = cv.files_state := by
  unfold CommitView.show_file
  rcases hdel with h | h
  · simp only [List.getD_eq_getElem?_getD] at h
    simp [h]
  · by_cases hst : ((infos.getD cv.index default).patch.getD idx default).status
        = DeltaStatus.Deleted <;>
      simp only [List.getD_eq_getElem?_getD] at h hst <;>
      simp [h, hst]

/-- Witness for C10 on a concrete deleted file change: an existing
`FileView` is dropped and two different renderers agree. -/
theorem c10_witness :
    ((⟨0, 0, ⟨some 0⟩, some ⟨Text.raw "old", 3⟩⟩ : CommitView).show_file
        sampleRender [commitDeleted] 0).file_view = none ∧
    (⟨0, 0, ⟨some 0⟩, some ⟨Text.raw "old", 3⟩⟩ : CommitView).show_file
        sampleRender [commitDeleted] 0
      = (⟨0, 0, ⟨some 0⟩, some ⟨Text.raw "old", 3⟩⟩ : CommitView).show_file
        sampleRenderAlt [commitDeleted] 0 ∧
    ((⟨0, 0, ⟨some 0⟩, some ⟨Text.raw "old", 3⟩⟩ : CommitView).show_file
        sampleRender [commitDeleted] 0).index = 0 ∧
    ((⟨0, 0, ⟨some 0⟩, some ⟨Text.raw "old", 3⟩⟩ : CommitView).show_file
        sampleRender [commitDeleted] 0).message_scroll = 0 ∧
    ((⟨0, 0, ⟨some 0⟩, some ⟨Text.raw "old", 3⟩⟩ : CommitView).show_file
        sampleRender [commitDeleted] 0).files_state = ⟨some 0⟩ :=
  c10 sampleRender sampleRenderAlt ⟨0, 0, ⟨some 0⟩, some ⟨Text.raw "old", 3⟩⟩
    [commitDeleted] 0 (Or.inl rfl)

/-- C5 fails as stated: with the detail view opened on a record whose first
(and only) file change is a deletion, the record has at least one file
change, the first file is selected — but no `FileView` is produced and the
Content Renderer is not consulted (`show_file` skips deletions,
terminal.rs:156). -/
theorem c5_counterexample :
    0 < (appDel.commit_infos.getD 0 default).patch.length ∧
    ((show_commit sampleRender appDel 0).commit_view.map fun cv => cv.file_view)
      = some none ∧
    ((show_commit sampleRender appDel 0).commit_view.map fun cv => cv.files_state.selected)
      = some (some 0) := by decide

/-- C5 amended: confirming a record from Log opens Detail on it; with zero
file changes there is no `FileView` and no file selection; with at least
one file change the first file is selected and `show_file` runs for index
0, producing a renderer-backed `FileView` unless that first delta is a
deletion or lacks a new-file path, in which case `file_view` stays `none`. -/
theorem c5_amended (render : Nat → String → Text) (s : AppRenderState) (i : Nat) :
    ((s.commit_infos.getD i default).patch.length = 0 →
      (show_commit render s i).commit_view =
        some { index := i, message_scroll := 0, files_state := ⟨none⟩, file_view := none }) ∧
    (0 < (s.commit_infos.getD i default).patch.length →
      ∃ cv, (show_commit render s i).commit_view = some cv ∧
        cv.index = i ∧ cv.message_scroll = 0 ∧ cv.files_state.selected = some 0 ∧
        cv.file_view =
          (if ((s.commit_infos.getD i default).patch.getD 0 default).status
              = DeltaStatus.Deleted then none
          else
            match ((s.commit_infos.getD i default).patch.getD 0 default).new_file_path with
            | some path =>
              some { contents := render (s.commit_infos.getD i default).commit_id path,
                     scroll := 0 }
            | none => none)) := by
  constructor
  · intro h0
    simp only [List.getD_eq_getElem?_getD] at h0
    simp [show_commit, ListState.default, h0]
  · intro hpos
    unfold show_commit show_commit_file CommitView.show_file
    simp only [ListState.default, ListState.selectFirst]
    rw [if_pos (by simpa using hpos)]
    by_cases hst : ((s.commit_infos.getD i default).patch.getD 0 default).status
        = DeltaStatus.Deleted
    · refine ⟨_, rfl, ?_⟩
      simp only [List.getD_eq_getElem?_getD] at hst
      simp [hst]
    · rcases hpath : ((s.commit_infos.getD i default).patch.getD 0 default).new_file_path
          with _ | p <;>
      · refine ⟨_, rfl, ?_⟩
        simp only [List.getD_eq_getElem?_getD] at hst hpath
        simp [hst, hpath]

/-- Witness for C5 (amended) on a record with zero file changes. -/
theorem c5_witness :
    (show_commit sampleRender appEmpty 0).commit_view =
      some { index := 0, message_scroll := 0, files_state := ⟨none⟩, file_view := none } :=
  (c5_amended sampleRender appEmpty 0).1 rfl

/-- C9 fails as stated: in the detail view the message-scroll key
(terminal.rs:202–204) does an unclamped saturating increment, so one key
press pushes `message_scroll` to 1 even when the message is 1 wrapped line
in a 10-row pane, i.e. when `max 0 (content_height − viewport_height) = 0`;
the bound is only restored by the renderer clamp on the next frame. -/
theorem c9_counterexample :
    (appMsg.commit_view.map fun cv => cv.message_scroll) = some 0 ∧
    ((handle_input sampleRender KeyCode.down false appMsg 30).1.commit_view.map
      fun cv => cv.message_scroll) = some 1 ∧
    ¬ (1 ≤ max 0 (1 - 10)) := by decide

/-- C9 amended: the file-content scroll is clamped to
`[0, contents_height − term_height / 3]` by every `scroll_file` call
(terminal.rs:345–350), and the message scroll is clamped to
`[0, line_count − pane_height]` by the renderer each frame
(terminal.rs:449–451); between a message-scroll keypress and the next draw
it may transiently exceed that bound (truncated `Nat` subtraction is
exactly `max 0 (a − b)`). -/
theorem c9_amended :
    (∀ (fv : FileView) (height : Nat) (amount : Int) (fv' : FileView),
      scroll_file (some fv) height amount = some fv' →
      fv'.scroll ≤ min fv.contents.height U16_MAX - height / 3) ∧
    (∀ message_scroll line_count pane_height : Nat,
      ui_clamp_message_scroll message_scroll line_count pane_height ≤
        line_count - pane_height) := by
  constructor
  · intro fv height amount fv' h
    unfold scroll_file at h
    simp only [Option.some.injEq] at h
    rw [← h]
    exact min_le_right _ _
  · intro ms lc ph
    exact le_trans (min_le_right _ _) (Nat.sub_le_sub_right (min_le_left _ _) _)

/-- Witness for C9 (amended): a page-down far past the end of a 3-line file
in a 3-row terminal stops at the clamp. -/
theorem c9_amended_witness :
    scroll_file (some ⟨⟨["a", "b", "c"]⟩, 0⟩) 3 10 = some ⟨⟨["a", "b", "c"]⟩, 2⟩ ∧
    (⟨⟨["a", "b", "c"]⟩, 2⟩ : FileView).scroll
      ≤ min (Text.height ⟨["a", "b", "c"]⟩) U16_MAX - 3 / 3 :=
  ⟨by decide, c9_amended.1 ⟨⟨["a", "b", "c"]⟩, 0⟩ 3 10 ⟨⟨["a", "b", "c"]⟩, 2⟩ (by decide)⟩

/-- `App::show_commit_file` never touches the popup. -/
theorem show_commit_file_popup (render : Nat → String → Text) (s : AppRenderState)
    (idx : Nat) : (show_commit_file render s idx).popup = s.popup := by
  unfold show_commit_file
  rcases h : s.commit_view <;> simp [h]

/-- C8 fails as stated: the very first line of `git.rs::show`,
`repo.workdir().unwrap()` (git.rs:127), panics on a bare repository — with
no working directory the renderer produces no text at all (the process
aborts), even when every external interaction would have succeeded.  So
the renderer can fail fatally before any spawn/run/parse error handling is
reached. -/
theorem c8_counterexample :
    gitShow none (Except.ok ()) (Except.ok ⟨true, [0], []⟩)
      (fun _ => Except.ok ⟨["diff"]⟩) = none := rfl

/-- C8 amended: on a repository with a working directory, the Content
Renderer (`git.rs::show`, lines 126–164) never fails fatally: for every
internal failure mode — spawn failure of `git show`, failure running
`delta`, unparsable ANSI output — it returns plain text describing the
error, and on success it returns the parsed text (stdout on exit success,
stderr otherwise); moreover whatever text the renderer returns is stored
in the `FileView` by the file-cursor keys and never surfaces as an
overlay.  (On a bare repository `repo.workdir().unwrap()` at git.rs:127
panics — the one fatal path, exercised by the counterexample.) -/
theorem c8_amended (wd : String) (sg : Except String Unit)
    (dout : Except String ProcOutput) (it : List Nat → Except String Text)
    (show_only : Bool) (s : AppRenderState) (cv : CommitView) (height : Nat) :
    (∀ e, sg = .error e →
      gitShow (some wd) sg dout it = some (Text.raw ("git show: " ++ e))) ∧
    (∀ e, dout = .error e →
      gitShow (some wd) (.ok ()) dout it = some (Text.raw e)) ∧
    (∀ o e, dout = .ok o → it (if o.success then o.stdout else o.stderr) = .error e →
      gitShow (some wd) (.ok ()) dout it = some (Text.raw ("ansi_to_tui:\n" ++ e))) ∧
    (∀ o t, dout = .ok o → it (if o.success then o.stdout else o.stderr) = .ok t →
      gitShow (some wd) (.ok ()) dout it = some t) ∧
    (∀ render : Nat → String → Text, s.popup = none → s.commit_view = some cv →
      (handle_input render (.char 'n') show_only s height).1.popup = none ∧
      (handle_input render (.char 'p') show_only s height).1.popup = none) := by
  refine ⟨?_, ?_, ?_, ?_, ?_⟩
  · intro e he; subst he; rfl
  · intro e he; subst he; rfl
  · intro o e ho he
    subst ho
    simp [gitShow, he]
  · intro o t ho ht
    subst ho
    simp [gitShow, ht]
  · intro render hp hcv
    obtain ⟨infos, deco, lm, lst, cvv, pop⟩ := s
    simp only [AppRenderState.popup] at hp
    simp only [AppRenderState.commit_view] at hcv
    subst hp; subst hcv
    exact ⟨rfl, rfl⟩

/-- Witness for C8 (amended): failure modes on a worktree repository, on a
concrete detail state — error text comes back, and the overlay stays empty
after a next-file press driven by the failing renderer's output. -/
theorem c8_amended_witness :
    gitShow (some "/repo") (Except.error "no git") (Except.error "delta gone")
        (fun _ => Except.error "bad ansi")
      = some (Text.raw ("git show: " ++ "no git")) ∧
    gitShow (some "/repo") (Except.ok ()) (Except.error "delta gone")
        (fun _ => Except.error "bad ansi")
      = some (Text.raw "delta gone") ∧
    (handle_input (fun _ _ => Text.raw "git show: no git")
        (.char 'n') false appDetail 30).1.popup = none := by
  have H := c8_amended "/repo" (Except.error "no git") (Except.error "delta gone")
    (fun _ => Except.error "bad ansi") false appDetail cvOpen 30
  exact ⟨H.1 "no git" rfl, H.2.1 "delta gone" rfl,
    (H.2.2.2.2 (fun _ _ => Text.raw "git show: no git") rfl rfl).1⟩

/-- Unfolding equation of `fillLoop` (one `while` iteration). -/
theorem fillLoop_eq (stream : List (Except String CommitInfo)) (buf : List CommitInfo)
    (needed : Nat) (popup : Option Text) :
    fillLoop stream buf needed popup =
      if buf.length < needed then
        match stream with
        | [] => (buf, [], popup)
        | .error e :: rest => (buf, rest, some (Text.raw e))
        | .ok ci :: rest => fillLoop rest (buf ++ [ci]) needed popup
      else (buf, stream, popup) := by
  rw [fillLoop.eq_def]

/-- C2: if the Provider fails mid-fill (`next_commit` returns `Err` after
`recs` successful fetches, terminal.rs:94–104), the fill aborts at once, the
failure message becomes the overlay, and the buffer holds exactly the
successfully fetched records — no partial record is appended and the rest of
the state is untouched (the loop returns only buffer, stream position and
popup). -/
theorem c2 (recs : List CommitInfo) (rest : List (Except String CommitInfo))
    (buf : List CommitInfo) (msg : String) (needed : Nat) (popup0 : Option Text)
    (hlen : buf.length + recs.length < needed) :
    fillLoop (recs.map Except.ok ++ Except.error msg :: rest) buf needed popup0
      = (buf ++ recs, rest, some (Text.raw msg)) := by
  induction recs generalizing buf with
  | nil =>
    rw [fillLoop_eq]
    simp only [List.map_nil, List.nil_append, List.append_nil]
    rw [if_pos (by simpa using hlen)]
  | cons r tl ih =>
    rw [fillLoop_eq]
    simp only [List.map_cons, List.cons_append]
    rw [if_pos (by simp at hlen ⊢; omega)]
    rw [ih (buf ++ [r]) (by simp at hlen ⊢; omega)]
    simp

/-- Witness for C2, the spec scenario: failure on the third fetch leaves the
two fetched records, sets the failure text as overlay, appends nothing. -/
theorem c2_witness :
    fillLoop ([commitPlain, commitTwoFiles].map Except.ok
        ++ Except.error "walk died" :: []) [] 5 none
      = ([commitPlain, commitTwoFiles], [], some (Text.raw "walk died")) := by
  have H := c2 [commitPlain, commitTwoFiles] [] [] "walk died" 5 none (by decide)
  simpa using H

/-- `show_file` only replaces the `file_view` field; the cursor, the record
index and the message scroll pass through. -/
theorem show_file_fields (render : Nat → String → Text) (cv : CommitView)
    (infos : List CommitInfo) (idx : Nat) :
    cv.show_file render infos idx
      = ⟨cv.index, cv.message_scroll, cv.files_state,
          (cv.show_file render infos idx).file_view⟩ := by
  unfold CommitView.show_file
  dsimp only
  split <;> first | rfl | (split <;> rfl)

/-- Closed form of one next-file keypress on an open detail view: the file
cursor is advanced by the bounded `scroll` and `show_file` re-runs at the
new index. -/
theorem press_next_file_closed (render : Nat → String → Text) (so : Bool) (height : Nat)
    (infos : List CommitInfo) (deco : Decorations) (lm : LogMode) (lst : ListState)
    (i m : Nat) (fv : Option FileView) :
    press_next_file render so height ⟨infos, deco, lm, lst, some ⟨i, 0, ⟨some m⟩, fv⟩, none⟩
      = ⟨infos, deco, lm, lst,
          some ((⟨i, 0,
              ⟨some (min (max (satAddSigned m 1) 0) ((infos.getD i default).num_files - 1))⟩,
              fv⟩ : CommitView).show_file render infos
            (min (max (satAddSigned m 1) 0) ((infos.getD i default).num_files - 1))),
          none⟩ := rfl

/-- The bounded cursor step of C4: starting at `min k (N − 1)` with upper
bound `N − 1`, one increment lands on `min (k + 1) (N − 1)`. -/
theorem clampStep (k N : Nat) (hN : 1 ≤ N) (hNmax : N ≤ USIZE_MAX) :
    min (max (satAddSigned (min k (N - 1)) 1) 0) (N - 1) = min (k + 1) (N - 1) := by
  simp only [satAddSigned, USIZE_MAX] at hNmax ⊢
  omega

/-- Iterated characterization behind C4: after `k` next-file presses on a
record with `N ≥ 1` file changes, the whole session state is unchanged
except the detail view, whose file cursor sits at `min k (N − 1)`. -/
theorem c4_aux (render : Nat → String → Text) (so : Bool) (height : Nat)
    (infos : List CommitInfo) (deco : Decorations) (lm : LogMode) (lst : ListState)
    (cvv : Option CommitView) (i N : Nat) (hN : 1 ≤ N) (hNmax : N ≤ USIZE_MAX)
    (hd : (infos.getD i default).patch.length = N)
    (hf : (infos.getD i default).num_files = N) :
    ∀ k : Nat, ∃ fv,
      (press_next_file render so height)^[k]
          (show_commit render ⟨infos, deco, lm, lst, cvv, none⟩ i)
        = ⟨infos, deco, lm, lst, some ⟨i, 0, ⟨some (min k (N - 1))⟩, fv⟩, none⟩ := by
  intro k
  induction k with
  | zero =>
    refine ⟨((⟨i, 0, ⟨some 0⟩, none⟩ : CommitView).show_file render infos 0).file_view, ?_⟩
    have hcond : 0 < (infos.getD i default).patch.length := by omega
    simp only [Function.iterate_zero, id_eq, show_commit, ListState.default,
      ListState.selectFirst, show_commit_file]
    rw [if_pos hcond]
    rw [show_file_fields]
    simp [Nat.zero_min]
  | succ k ih =>
    obtain ⟨fv, hst⟩ := ih
    rw [Function.iterate_succ_apply', hst, press_next_file_closed, hf,
      clampStep k N hN hNmax]
    rw [show_file_fields]
    exact ⟨_, rfl⟩

/-- C4: opening a record with `N ≥ 1` file changes and pressing next-file
`k ≤ N` times leaves the file cursor at `min k (N − 1)` — in particular
after exactly `N` presses it sits clamped at `N − 1`, never wrapping to 0
and never exceeding `N − 1` (terminal.rs:190–201 with the bounded
`scroll` of lines 331–344). -/
theorem c4 (render : Nat → String → Text) (so : Bool) (height : Nat)
    (s0 : AppRenderState) (i N : Nat) (hpop : s0.popup = none) (hN : 1 ≤ N)
    (hNmax : N ≤ USIZE_MAX)
    (hd : (s0.commit_infos.getD i default).patch.length = N)
    (hf : (s0.commit_infos.getD i default).num_files = N) :
    ∀ k, k ≤ N →
      ((press_next_file render so height)^[k] (show_commit render s0 i)).commit_view.map
          (fun cv => cv.files_state.selected) = some (some (min k (N - 1))) ∧
      (k = N →
        ((press_next_file render so height)^[k] (show_commit render s0 i)).commit_view.map
          (fun cv => cv.files_state.selected) = some (some (N - 1))) := by
  obtain ⟨infos, deco, lm, lst, cvv, pop⟩ := s0
  simp only [AppRenderState.popup] at hpop
  simp only [AppRenderState.commit_infos] at hd hf
  subst hpop
  intro k hk
  obtain ⟨fv, hst⟩ := c4_aux render so height infos deco lm lst cvv i N hN hNmax hd hf k
  rw [hst]
  refine ⟨rfl, ?_⟩
  intro hkN
  have hmin : min k (N - 1) = N - 1 := by omega
  rw [hmin]
  rfl

/-- Witness for C4: two next-file presses on the two-file record end at
index 1 = N − 1. -/
theorem c4_witness :
    ((press_next_file sampleRender false 30)^[2]
        (show_commit sampleRender appTwo 0)).commit_view.map
      (fun cv => cv.files_state.selected) = some (some (2 - 1)) := by
  have H := c4 sampleRender false 30 appTwo 0 2 rfl (by decide) (by decide) rfl rfl
    2 (le_refl 2)
  exact H.2 rfl

/-- Characterization of the fill loop over an all-successful provider
stream positioned after `m` already-buffered records: it grows the prefix
to `max m (min needed L)` — to `needed` if the history suffices, else to
exhaustion — touches no popup, and leaves the stream at the matching
position. -/
theorem fillLoop_take (history : List CommitInfo) (needed : Nat) :
    ∀ fuel m, history.length - m = fuel → m ≤ history.length →
    fillLoop ((history.map Except.ok).drop m) (history.take m) needed none
      = (history.take (max m (min needed history.length)),
        (history.map Except.ok).drop (max m (min needed history.length)), none) := by
  intro fuel
  induction fuel with
  | zero =>
    intro m hf hm
    have hm2 : m = history.length := by omega
    subst hm2
    have hd : (history.map Except.ok : List (Except String CommitInfo)).drop history.length
        = [] := by
      rw [← List.length_map history Except.ok]
      exact List.drop_length _
    have hmax : max history.length (min needed history.length) = history.length := by omega
    rw [fillLoop_eq, hmax, hd]
    simp only [List.take_length]
    split <;> rfl
  | succ fuel ih =>
    intro m hf hm
    have hlt : m < history.length := by omega
    by_cases hneed : m < needed
    · have hdrop : (history.map Except.ok : List (Except String CommitInfo)).drop m
          = Except.ok history[m] :: (history.map Except.ok).drop (m + 1) := by
        rw [← List.map_drop, List.drop_eq_getElem_cons hlt, List.map_cons, List.map_drop]
      have hc : (history.take m).length < needed := by
        simp only [List.length_take]
        omega
      rw [fillLoop_eq, hdrop, if_pos hc]
      dsimp only
      rw [List.take_concat_get']
      rw [ih (m + 1) (by omega) (by omega)]
      have hmax : max (m + 1) (min needed history.length)
          = max m (min needed history.length) := by omega
      rw [hmax]
    · have hc : ¬ (history.take m).length < needed := by
        simp only [List.length_take]
        omega
      have hmax : max m (min needed history.length) = m := by omega
      rw [fillLoop_eq, if_neg hc, hmax]

/-- Under the log-session invariant, one `fill_step` grows the buffer to
exactly `min (height / 2 + cursor) L` — the claimed
`min (k + viewport_rows_needed, L)` — advances the stream to match, and
raises no overlay. -/
theorem fill_step_spec (history : List CommitInfo) (height : Nat) (app : AppState)
    (H : LogInv history height app) :
    fill_step height app
      = { app with
          state := { app.state with
            commit_infos := history.take (min (height / 2 +
              app.state.log_state.selected.getD 0) history.length),
            popup := none },
          stream := (history.map Except.ok).drop (min (height / 2 +
            app.state.log_state.selected.getD 0) history.length) } := by
  obtain ⟨m, hso, hcv, hpop, hbuf, hstream, hm, hbound⟩ := H
  have hmL : m ≤ history.length := by omega
  unfold fill_step
  rw [hso, hbuf, hstream, hpop]
  simp only [Bool.false_eq_true, if_false]
  rw [fillLoop_take history _ (history.length - m) m rfl hmL]
  have hK : max m (min (height / 2 + app.state.log_state.selected.getD 0) history.length)
      = min (height / 2 + app.state.log_state.selected.getD 0) history.length := by omega
  rw [hK]

/-- In the log view with no overlay, each of the four scroll-down keys runs
the unbounded `scroll` by some non-negative amount and nothing else. -/
theorem handle_input_scrolldown (render : Nat → String → Text) (key : KeyCode)
    (s : AppRenderState) (height : Nat) (hp : s.popup = none) (hcv : s.commit_view = none)
    (hkey : key ∈ scrollDownKeys) :
    ∃ d : Nat, handle_input render key false s height
      = ({ s with log_state := (scroll s.log_state (d : Int) none).1 }, .cont) := by
  obtain ⟨infos, deco, lm, lst, cvv, pop⟩ := s
  simp only [AppRenderState.popup] at hp
  simp only [AppRenderState.commit_view] at hcv
  subst hp; subst hcv
  simp only [scrollDownKeys, List.mem_cons, List.not_mem_nil, or_false] at hkey
  rcases hkey with h | h | h | h <;> subst h
  · exact ⟨1, rfl⟩
  · exact ⟨1, rfl⟩
  · exact ⟨height / 4, rfl⟩
  · exact ⟨height / 4, rfl⟩

/-- An unbounded downward `scroll` never decreases the cursor value and
keeps it a valid `usize`. -/
theorem scroll_down_mono (lst : ListState) (d : Nat)
    (hb : lst.selected.getD 0 ≤ USIZE_MAX) :
    lst.selected.getD 0 ≤ (scroll lst (d : Int) none).1.selected.getD 0 ∧
    (scroll lst (d : Int) none).1.selected.getD 0 ≤ USIZE_MAX := by
  rcases h : lst.selected with _ | i
  · simp [scroll, h, USIZE_MAX]
  · rw [h] at hb
    simp only [Option.getD_some] at hb
    simp only [scroll, h, Option.getD_some]
    simp only [satAddSigned, USIZE_MAX] at hb ⊢
    constructor <;> omega

/-- Closed form of one whole `run_app` iteration under a scroll-down key in
the log view: fill to `min (height / 2 + cursor, L)`, then move the cursor
down; nothing else changes and no overlay appears. -/
theorem run_frame_scrolldown (history : List CommitInfo) (height : Nat)
    (render : Nat → String → Text) (key : KeyCode) (app : AppState)
    (H : LogInv history height app) (hkey : key ∈ scrollDownKeys) :
    ∃ d : Nat, (run_frame render height key app).1
      = { app with
          state := { app.state with
            commit_infos := history.take (min (height / 2 +
              app.state.log_state.selected.getD 0) history.length),
            popup := none,
            log_state := (scroll app.state.log_state (d : Int) none).1 },
          stream := (history.map Except.ok).drop (min (height / 2 +
            app.state.log_state.selected.getD 0) history.length) } := by
  have hfs := fill_step_spec history height app H
  obtain ⟨m, hso, hcv, hpop, hbuf, hstream, hm, hbound⟩ := H
  obtain ⟨d, hh⟩ := handle_input_scrolldown render key
    ({ app.state with
        commit_infos := history.take (min (height / 2 +
          app.state.log_state.selected.getD 0) history.length),
        popup := none }) height rfl hcv hkey
  refine ⟨d, ?_⟩
  unfold run_frame
  rw [hfs]
  simp only [hso, Bool.false_and, Bool.false_eq_true, if_false]
  rw [hh]

/-- One scroll-down frame preserves the log-session invariant and never
moves the cursor up. -/
theorem frame_step_inv (history : List CommitInfo) (height : Nat)
    (render : Nat → String → Text) (key : KeyCode) (app : AppState)
    (H : LogInv history height app) (hkey : key ∈ scrollDownKeys) :
    LogInv history height (run_frame render height key app).1 ∧
    app.state.log_state.selected.getD 0
      ≤ (run_frame render height key app).1.state.log_state.selected.getD 0 := by
  obtain ⟨d, hrf⟩ := run_frame_scrolldown history height render key app H hkey
  obtain ⟨m, hso, hcv, hpop, hbuf, hstream, hm, hbound⟩ := H
  have hmono := scroll_down_mono app.state.log_state d hbound
  rw [hrf]
  constructor
  · refine ⟨min (height / 2 + app.state.log_state.selected.getD 0) history.length,
      hso, hcv, rfl, rfl, rfl, ?_, hmono.2⟩
    have h1 := hmono.1
    dsimp only
    omega
  · exact hmono.1

/-- Any scroll-down key sequence preserves the invariant, with a
non-decreasing cursor. -/
theorem run_frames_inv (history : List CommitInfo) (height : Nat)
    (render : Nat → String → Text) (ks : List KeyCode)
    (hks : ∀ k ∈ ks, k ∈ scrollDownKeys) (app : AppState)
    (H : LogInv history height app) :
    LogInv history height (run_frames render height ks app) ∧
    app.state.log_state.selected.getD 0
      ≤ (run_frames render height ks app).state.log_state.selected.getD 0 := by
  induction ks generalizing app with
  | nil => exact ⟨H, le_refl _⟩
  | cons k tl ih =>
    have h1 := frame_step_inv history height render k app H (hks k (by simp))
    have h2 := ih (fun x hx => hks x (by simp [hx])) (run_frame render height k app).1 h1.1
    exact ⟨h2.1, le_trans h1.2 h2.2⟩

/-- Splitting a key sequence splits the frame iteration. -/
theorem run_frames_append (render : Nat → String → Text) (height : Nat)
    (ks₁ ks₂ : List KeyCode) (app : AppState) :
    run_frames render height (ks₁ ++ ks₂) app
      = run_frames render height ks₂ (run_frames render height ks₁ app) := by
  simp [run_frames, List.foldl_append]

/-- C1: starting a session over a backing history of length `L` and issuing
any sequence of scroll-down keys leaving the log cursor at `k`, the next
frame fill grows the buffer to exactly the history prefix of length
`min (height / 2 + k) L` (`height / 2` being the viewport rows needed,
terminal.rs:91–92) — never beyond `L`; provider exhaustion stops the fill
without appending and without any overlay; and the buffer of any earlier
frame is a prefix of the later buffer (never shrunk, truncated or
reordered). -/
theorem c1 (render : Nat → String → Text) (deco : Decorations)
    (history : List CommitInfo) (height : Nat) (ks : List KeyCode)
    (hks : ∀ k ∈ ks, k ∈ scrollDownKeys) :
    (fill_step height (run_frames render height ks (init_app deco history))).state.commit_infos
      = history.take (min (height / 2 +
          (fill_step height (run_frames render height ks
            (init_app deco history))).state.log_state.selected.getD 0) history.length) ∧
    (fill_step height (run_frames render height ks
        (init_app deco history))).state.commit_infos.length
      = min (height / 2 +
          (fill_step height (run_frames render height ks
            (init_app deco history))).state.log_state.selected.getD 0) history.length ∧
    (fill_step height (run_frames render height ks
        (init_app deco history))).state.commit_infos.length ≤ history.length ∧
    (fill_step height (run_frames render height ks (init_app deco history))).state.popup
      = none ∧
    ∀ ks₁ ks₂, ks = ks₁ ++ ks₂ →
      (fill_step height (run_frames render height ks₁
          (init_app deco history))).state.commit_infos
        <+: (fill_step height (run_frames render height ks
          (init_app deco history))).state.commit_infos := by
  have H0 : LogInv history height (init_app deco history) :=
    ⟨0, rfl, rfl, rfl, rfl, rfl, Nat.zero_le _, Nat.zero_le _⟩
  have HInv := run_frames_inv history height render ks hks (init_app deco history) H0
  have hfs := fill_step_spec history height (run_frames render height ks
    (init_app deco history)) HInv.1
  rw [hfs]
  refine ⟨rfl, ?_, ?_, rfl, ?_⟩
  · simp only [List.length_take]
    omega
  · simp only [List.length_take]
    omega
  · intro ks₁ ks₂ heq
    subst heq
    have hks₁ : ∀ k ∈ ks₁, k ∈ scrollDownKeys := fun x hx => hks x (by simp [hx])
    have H1 := run_frames_inv history height render ks₁ hks₁ (init_app deco history) H0
    have hfs₁ := fill_step_spec history height (run_frames render height ks₁
      (init_app deco history)) H1.1
    rw [hfs₁]
    have H2 := run_frames_inv history height render ks₂
      (fun x hx => hks x (by simp [hx]))
      (run_frames render height ks₁ (init_app deco history)) H1.1
    rw [run_frames_append] at hfs ⊢
    exact List.take_prefix_take_left history (by
      have := H2.2
      omega)

/-- Witness for C1: a session over a two-record history at height 4, one
scroll-down key — the fill never exceeds the history length and raises no
overlay. -/
theorem c1_witness :
    (fill_step 4 (run_frames sampleRender 4 [KeyCode.char 'j']
        (init_app noDeco [commitPlain, commitTwoFiles]))).state.popup = none ∧
    (fill_step 4 (run_frames sampleRender 4 [KeyCode.char 'j']
        (init_app noDeco [commitPlain, commitTwoFiles]))).state.commit_infos.length
      ≤ ([commitPlain, commitTwoFiles] : List CommitInfo).length := by
  have H := c1 sampleRender noDeco [commitPlain, commitTwoFiles] 4 [KeyCode.char 'j']
    (by decide)
  exact ⟨H.2.2.2.1, H.2.2.1⟩

end Gil
